import Mathlib

/-!
Verification of the semantic document retrieval subsystem of the
contexis-cmp/contexis repository against its design specification.

The development shallowly embeds the Python class
`CustomerDocsSemanticSearch` (src/tools/CustomerDocs/semantic_search.py)
and the drift harness `run_drift_tests` (src/tests/CustomerDocs/test_rag.py).

Modelling conventions:
- Floating point distances and similarities are modelled by rationals; the
  claims under study concern control flow, filtering and ordering, not
  rounding behaviour.
- The embedding model (`self.model.encode`) and the chroma collection
  (`self.collection.query` and such) are external collaborators; they are
  modelled as function-valued fields of the engine record. A call that
  raises an exception is modelled by the function returning `none`; Python
  code that catches the exception sees `none` and takes its `except` branch.
- Python dictionaries read from YAML may lack keys; such fields are
  modelled with `Option`, and a direct subscript access of a missing key
  (Python `KeyError`) follows the `none` branch.
- Python functions that can fall off the end of their body return `None`;
  a Python return value that is either `None` or a bool is modelled by
  `Option Bool` (`none` = Python `None`).
-/

namespace CustomerDocs

/-- One aligned row of a chroma query response: the entry at index `i` of
`results[x][0]` for `x` in ids, distances, documents, metadatas.  A `None`
metadata entry is `none`. -/
structure StoreEntry where
  id : String
  distance : ℚ
  document : String
  metadata : Option (List (String × String))
deriving DecidableEq

/-- The dictionary appended to `formatted_results` in
`CustomerDocsSemanticSearch.search`, and also the shape of the mock result. -/
structure SearchResult where
  id : String
  content : String
  metadata : List (String × String)
  similarity : ℚ
  distance : ℚ
deriving DecidableEq

/-- A document handed to `add_documents`: subscript access to `doc` uses
`doc[\x27id\x27]` and `doc[\x27content\x27]` (required), and
`doc.get(\x27metadata\x27, \x7b\x7d)` (optional). -/
structure Doc where
  id : String
  content : String
  metadata : Option (List (String × String))
deriving DecidableEq

/-- The external chroma collection handle, over an abstract store state `σ`.
Each method may raise (modelled by `none`).
`query` receives the full `query_embeddings` list and `n_results` and yields
the aligned row lists for the first query vector (`results[...][0]`);
`add` receives ids, embeddings, documents, metadatas; `count` yields the
number of stored records. -/
structure Collection (σ : Type) where
  query : σ → List (List ℚ) → Nat → Option (List StoreEntry)
  add : σ → List String → List (List ℚ) → List String →
      List (List (String × String)) → Option σ
  count : σ → Option Nat

/-- The state of a `CustomerDocsSemanticSearch` object after
`_initialize_components` succeeded: constructor arguments `db_type` and
`embedding_model`, the embedding model handle (`self.model.encode`, batched:
a list of texts to a list of vectors, `none` = exception), and the
collection handle. -/
structure Engine (σ : Type) where
  db_type : String
  embedding_model : String
  encode : List String → Option (List (List ℚ))
  collection : Collection σ

/-- `CustomerDocsSemanticSearch._mock_search` (semantic_search.py lines
116-126): one hard-coded result, only the content text mentions the query;
`top_k` is ignored. -/
def mock_search (query : String) (top_k : Nat) : List SearchResult :=
  [{ id := "mock_1"
     content := "Mock result for query: " ++ query
     metadata := [("title", "Mock Document"), ("source", "test")]
     similarity := (85 : ℚ)/100
     distance := (15 : ℚ)/100 }]

/-- `CustomerDocsSemanticSearch.search` (semantic_search.py lines 66-114).
Python defaults are `top_k = 5`, `threshold = 0.7`; callers that omit them
pass `5` and `7/10` here.  The whole body is wrapped in
`try ... except Exception: return []`, so a failing embedding call or store
query yields `[]`. -/
def search {σ : Type} (eng : Engine σ) (st : σ) (query : String)
    (top_k : Nat) (threshold : ℚ) : List SearchResult :=
  match eng.encode [query] with
  | none => []
  | some query_embedding =>
    if eng.db_type = "chroma" then
      match eng.collection.query st query_embedding top_k with
      | none => []
      | some results =>
        results.filterMap fun e =>
          let similarity := 1 - e.distance
          if threshold ≤ similarity then
            some { id := e.id
                   content := e.document
                   metadata := e.metadata.getD []
                   similarity := similarity
                   distance := e.distance }
          else none
    else
      mock_search query top_k

/-- `CustomerDocsSemanticSearch.add_documents` (semantic_search.py lines
128-161).  Returns `(r, st)` where `r` is the Python return value
(`some true` = `True`, `some false` = `False`, `none` = falling off the end
of the function, i.e. Python `None`) and the second component is the store
state afterwards.  Any exception inside the `try` (a failing batched encode
or a rejected `collection.add`) is caught and yields `False` with the store
state unchanged. -/
def add_documents {σ : Type} (eng : Engine σ) (st : σ) (documents : List Doc) :
    Option Bool × σ :=
  if eng.db_type = "chroma" then
    let ids := documents.map (·.id)
    let contents := documents.map (·.content)
    let metadatas := documents.map (fun d => d.metadata.getD [])
    match eng.encode contents with
    | none => (some false, st)
    | some embeddings =>
      match eng.collection.add st ids embeddings contents metadatas with
      | none => (some false, st)
      | some st2 => (some true, st2)
  else
    (none, st)

/-- The dictionary returned by `get_stats`: either the three-field stats
record or the fallback `\x7b\x27error\x27: ...\x7d` dictionary. -/
inductive StatsResult
  | stats (total_documents : Nat) (database_type : String)
      (embedding_model : String)
  | err (msg : String)
deriving DecidableEq

/-- `CustomerDocsSemanticSearch.get_stats` (semantic_search.py lines
163-176): inside `try`, only the chroma branch returns the stats record; a
failing `count` is caught and, like every non-chroma configuration, falls
through to the fallback error dictionary. -/
def get_stats {σ : Type} (eng : Engine σ) (st : σ) : StatsResult :=
  if eng.db_type = "chroma" then
    match eng.collection.count st with
    | some count => .stats count eng.db_type eng.embedding_model
    | none => .err "Unable to retrieve statistics"
  else
    .err "Unable to retrieve statistics"

end CustomerDocs

namespace DriftTest

open CustomerDocs

/-- Python substring containment (`pat in s` on strings), on the underlying
character sequences: `pat` occurs contiguously in `s`. -/
def containsSeq (pat : List Char) : List Char → Bool
  | [] => List.isPrefixOf pat []
  | c :: rest => List.isPrefixOf pat (c :: rest) || containsSeq pat rest

/-- Python `pat in s` for strings. -/
def containsSub (s pat : String) : Bool :=
  containsSeq pat.data s.data

/-- Status strings recorded in the per-test dictionaries of
`run_drift_tests` (test_rag.py). -/
inductive Status
  | PASSED
  | FAILED
  | ERROR
deriving DecidableEq

/-- One entry of `results[\x27tests\x27]`: the Python dictionaries carry
`name` and `status`, plus either a `similarity` key or a `reason` key. -/
structure CaseRecord where
  name : String
  status : Status
  similarity : Option ℚ
  reason : Option String
deriving DecidableEq

/-- One test case from the YAML suite.  `name` is required (it is read
before the per-case `try` block); `input` and `expected_similarity` are
dictionary keys that may be absent. -/
structure TestCase where
  name : String
  input : Option String
  expected_similarity : Option ℚ
deriving DecidableEq

/-- The `results` accumulator of `run_drift_tests`: keys `passed`,
`failed` and `tests`.  There is no errored counter. -/
structure SuiteReport where
  passed : Nat
  failed : Nat
  tests : List CaseRecord
deriving DecidableEq

/-- The engine constructed by `run_drift_tests` via
`CustomerDocsSemanticSearch()` (test_rag.py line 26): constructor defaults
`db_type = "sqlite"`, `embedding_model = "sentence-transformers"`.  With a
non-chroma `db_type`, `_initialize_components` leaves `self.client` and
`self.collection` as `None`, so every collection method call would raise
(modelled by `none`); only the embedding model handle is live. -/
def harnessEngine (encode : List String → Option (List (List ℚ))) :
    Engine Unit :=
  { db_type := "sqlite"
    embedding_model := "sentence-transformers"
    encode := encode
    collection :=
      { query := fun _ _ _ => none
        add := fun _ _ _ _ _ => none
        count := fun _ => none } }

/-- The search call of the harness, test_rag.py line 41:
`search.search(test_case[\x27input\x27])` — `top_k` and `threshold` are not
passed, so the Python defaults `5` and `0.7` apply. -/
def harness_search (encode : List String → Option (List (List ℚ)))
    (input : String) : List SearchResult :=
  search (harnessEngine encode) () input 5 ((7 : ℚ)/10)

/-- The body of the per-case loop of `run_drift_tests` (test_rag.py lines
36-84).  A missing `input` key raises `KeyError` inside the `try` and is
recorded as ERROR.  On an empty result list the no-results policy applies
(substring test on the name).  Otherwise the top result is compared against
`test_case.get(\x27expected_similarity\x27, 0.7)`; in the failing branch the
reason f-string subscripts `test_case[\x27expected_similarity\x27]`
directly, so a missing key there raises `KeyError`, caught as ERROR. -/
def run_case (encode : List String → Option (List (List ℚ)))
    (c : TestCase) : CaseRecord :=
  match c.input with
  | none =>
    { name := c.name, status := .ERROR, similarity := none
      reason := some "KeyError: \x27input\x27" }
  | some input =>
    match harness_search encode input with
    | [] =>
      if containsSub c.name "no_results_handling" then
        { name := c.name, status := .PASSED, similarity := none
          reason := some "Correctly handled no results" }
      else
        { name := c.name, status := .FAILED, similarity := none
          reason := some "No search results returned" }
    | best_result :: _ =>
      if c.expected_similarity.getD ((7 : ℚ)/10) ≤ best_result.similarity then
        { name := c.name, status := .PASSED
          similarity := some best_result.similarity, reason := none }
      else
        match c.expected_similarity with
        | some thr =>
          { name := c.name, status := .FAILED, similarity := none
            reason := some ("Similarity " ++ toString best_result.similarity
              ++ " below threshold " ++ toString thr) }
        | none =>
          { name := c.name, status := .ERROR, similarity := none
            reason := some "KeyError: \x27expected_similarity\x27" }

/-- Folding one case record into the accumulator: the PASSED branches do
`results[\x27passed\x27] += 1`, the FAILED and ERROR branches both do
`results[\x27failed\x27] += 1`, and every branch appends to
`results[\x27tests\x27]`. -/
def record_case (acc : SuiteReport) (r : CaseRecord) : SuiteReport :=
  match r.status with
  | .PASSED => { acc with passed := acc.passed + 1, tests := acc.tests ++ [r] }
  | _ => { acc with failed := acc.failed + 1, tests := acc.tests ++ [r] }

/-- The `results` dictionary at the end of the loop of `run_drift_tests`
(test_rag.py lines 30-84). -/
def run_drift_tests_report (encode : List String → Option (List (List ℚ)))
    (cases : List TestCase) : SuiteReport :=
  cases.foldl (fun acc c => record_case acc (run_case encode c))
    { passed := 0, failed := 0, tests := [] }

/-- The return value of `run_drift_tests` (test_rag.py line 98):
`results[\x27failed\x27] == 0`. -/
def run_drift_tests (encode : List String → Option (List (List ℚ)))
    (cases : List TestCase) : Bool :=
  (run_drift_tests_report encode cases).failed == 0

end DriftTest

namespace CustomerDocs

/-- The result record built from one store entry by the formatting loop of
`search` (semantic_search.py lines 92-103). -/
def format_entry (e : StoreEntry) : SearchResult :=
  { id := e.id
    content := e.document
    metadata := e.metadata.getD []
    similarity := 1 - e.distance
    distance := e.distance }

/-! Concrete instances of the external collaborators, used to evaluate the
engine at concrete inputs. -/

/-- An embedding model whose every call raises (e.g. model unavailable). -/
def encodeFail : List String → Option (List (List ℚ)) := fun _ => none

/-- An embedding model that succeeds on every batch, one fixed-dimension
vector per input text. -/
def encodeOk : List String → Option (List (List ℚ)) :=
  fun texts => some (texts.map (fun _ => [0]))

/-- A store entry close to the query (similarity 9/10). -/
def entryA : StoreEntry := { id := "d1", distance := (1 : ℚ)/10, document := "doc one", metadata := none }

/-- A store entry farther from the query (similarity 1/2, below the 0.7
default threshold). -/
def entryB : StoreEntry := { id := "d2", distance := (1 : ℚ)/2, document := "doc two", metadata := some [("k", "v")] }

/-- A healthy collection handle returning `entryA` then `entryB` (ascending
distance) for every query. -/
def twoDocCollection : Collection Unit :=
  { query := fun _ _ _ => some [entryA, entryB]
    add := fun _ _ _ _ _ => none
    count := fun _ => some 2 }

/-- A collection handle whose every method raises (store unreachable, or the
`None` handle of a non-chroma configuration). -/
def downCollection : Collection Unit :=
  { query := fun _ _ _ => none
    add := fun _ _ _ _ _ => none
    count := fun _ => none }

/-- A chroma-backed engine over the healthy two-document collection. -/
def chromaEngine : Engine Unit :=
  { db_type := "chroma", embedding_model := "sentence-transformers"
    encode := encodeOk, collection := twoDocCollection }

/-- A chroma-backed engine whose embedding model raises on every call. -/
def failEmbedEngine : Engine Unit :=
  { db_type := "chroma", embedding_model := "sentence-transformers"
    encode := encodeFail, collection := twoDocCollection }

/-- A chroma-backed engine whose store is unreachable. -/
def downStoreEngine : Engine Unit :=
  { db_type := "chroma", embedding_model := "sentence-transformers"
    encode := encodeOk, collection := downCollection }

/-- An engine in the constructor-default configuration
(`db_type = "sqlite"`): the collection handle is `None`. -/
def sqliteEngine : Engine Unit :=
  { db_type := "sqlite", embedding_model := "sentence-transformers"
    encode := encodeOk, collection := downCollection }

/-- A concrete chroma-like store over a list of stored ids: `add` rejects a
batch whose ids are empty, repeat within the batch, or collide with stored
ids (chromadb raises in each of these cases), and otherwise appends;
`count` is the number of stored ids. -/
def idListCollection : Collection (List String) :=
  { query := fun _ _ _ => some []
    add := fun st ids _ _ _ =>
      if ids.isEmpty || ids.dedup.length != ids.length
          || ids.any (fun i => st.contains i) then
        none
      else
        some (st ++ ids)
    count := fun st => some st.length }

/-- A chroma-backed engine over the id-list store. -/
def chromaListEngine : Engine (List String) :=
  { db_type := "chroma", embedding_model := "sentence-transformers"
    encode := encodeOk, collection := idListCollection }

end CustomerDocs

namespace CustomerDocs

lemma filterMap_format (t : ℚ) (entries : List StoreEntry) :
    (entries.filterMap fun e =>
      let similarity := 1 - e.distance
      if t ≤ similarity then
        some { id := e.id
               content := e.document
               metadata := e.metadata.getD []
               similarity := similarity
               distance := e.distance }
      else none)
    = (entries.map format_entry).filter (fun r => decide (t ≤ r.similarity)) := by
  induction entries with
  | nil => rfl
  | cons e es ih =>
    simp only [List.filterMap_cons, List.map_cons, List.filter_cons]
    by_cases h : t ≤ 1 - e.distance
    · simp [format_entry, h, ih]
    · simp [format_entry, h, ih]

lemma search_encode_fail {σ : Type} (eng : Engine σ) (st : σ) (q : String)
    (k : Nat) (t : ℚ) (he : eng.encode [q] = none) :
    search eng st q k t = [] := by
  simp [search, he]

lemma search_store_fail {σ : Type} (eng : Engine σ) (st : σ) (q : String)
    (k : Nat) (t : ℚ) (v : List (List ℚ)) (hdb : eng.db_type = "chroma")
    (he : eng.encode [q] = some v)
    (hq : eng.collection.query st v k = none) :
    search eng st q k t = [] := by
  simp [search, he, hdb, hq]

lemma search_chroma_eq {σ : Type} (eng : Engine σ) (st : σ) (q : String)
    (k : Nat) (t : ℚ) (v : List (List ℚ)) (entries : List StoreEntry)
    (hdb : eng.db_type = "chroma") (he : eng.encode [q] = some v)
    (hq : eng.collection.query st v k = some entries) :
    search eng st q k t
      = (entries.map format_entry).filter (fun r => decide (t ≤ r.similarity)) := by
  simp only [search, he, hdb, if_pos, hq]
  exact filterMap_format t entries

lemma search_mock_eq {σ : Type} (eng : Engine σ) (st : σ) (q : String)
    (k : Nat) (t : ℚ) (v : List (List ℚ)) (hdb : eng.db_type ≠ "chroma")
    (he : eng.encode [q] = some v) :
    search eng st q k t = mock_search q k := by
  simp [search, he, hdb]

/-- C7: on the chroma path, for every successful store response, `search`
computes `similarity = 1 - distance` for each returned entry (the
`format_entry` record, which carries the entry's id, content, metadata,
similarity and distance), returns exactly those entries whose similarity is
at least the threshold, and keeps the store's original order: the result is
the similarity-filtered formatted response, hence a sublist of it (ties are
never re-ordered). -/
theorem search_formats_and_filters {σ : Type} (eng : Engine σ) (st : σ)
    (q : String) (k : Nat) (t : ℚ) (v : List (List ℚ))
    (entries : List StoreEntry) (hdb : eng.db_type = "chroma")
    (he : eng.encode [q] = some v)
    (hq : eng.collection.query st v k = some entries) :
    search eng st q k t
        = (entries.map format_entry).filter (fun r => decide (t ≤ r.similarity))
      ∧ (search eng st q k t).Sublist (entries.map format_entry) := by
  have h := search_chroma_eq eng st q k t v entries hdb he hq
  exact ⟨h, h ▸ List.filter_sublist _⟩

theorem search_formats_and_filters_witness :
    chromaEngine.db_type = "chroma"
    ∧ chromaEngine.encode ["q"] = some [[0]]
    ∧ chromaEngine.collection.query () [[0]] 5 = some [entryA, entryB]
    ∧ search chromaEngine () "q" 5 ((7 : ℚ)/10)
        = ([entryA, entryB].map format_entry).filter
            (fun r => decide ((7 : ℚ)/10 ≤ r.similarity))
    ∧ search chromaEngine () "q" 5 ((7 : ℚ)/10) = [format_entry entryA] := by
  have h := search_formats_and_filters chromaEngine () "q" 5 ((7 : ℚ)/10) [[0]]
    [entryA, entryB] rfl rfl rfl
  refine ⟨rfl, rfl, rfl, h.1, ?_⟩
  rw [h.1]
  norm_num [entryA, entryB, format_entry]

/-- C2: with any non-chroma `db_type` (in particular the constructor default
"sqlite"), whenever the embedding call succeeds, `search` never consults the
vector store (the result is the same for every collection handle and store
state, both universally quantified) and returns exactly one hard-coded
result with id "mock_1", similarity 0.85 and distance 0.15, for every
query, `top_k` and `threshold`. -/
theorem search_non_chroma_is_mock {σ : Type} (eng : Engine σ) (st : σ)
    (q : String) (k : Nat) (t : ℚ) (v : List (List ℚ))
    (hdb : eng.db_type ≠ "chroma") (he : eng.encode [q] = some v) :
    search eng st q k t
      = [{ id := "mock_1"
           content := "Mock result for query: " ++ q
           metadata := [("title", "Mock Document"), ("source", "test")]
           similarity := (85 : ℚ)/100
           distance := (15 : ℚ)/100 }] := by
  rw [search_mock_eq eng st q k t v hdb he]
  rfl

theorem search_non_chroma_is_mock_witness :
    sqliteEngine.db_type ≠ "chroma"
    ∧ sqliteEngine.encode ["hello"] = some [[0]]
    ∧ search sqliteEngine () "hello" 3 ((99 : ℚ)/100)
        = [{ id := "mock_1"
             content := "Mock result for query: hello"
             metadata := [("title", "Mock Document"), ("source", "test")]
             similarity := (85 : ℚ)/100
             distance := (15 : ℚ)/100 }] := by
  refine ⟨by decide, rfl, ?_⟩
  have h := search_non_chroma_is_mock sqliteEngine () "hello" 3 ((99 : ℚ)/100)
    [[0]] (by decide) rfl
  rw [h]
  exact rfl

/-- C9: monotone filtering: for all engines, store states, queries, top_k
and thresholds t1 ≤ t2, the result of `search` at threshold t2 is a
subsequence (List.Sublist) of the result at threshold t1. -/
theorem search_threshold_monotone {σ : Type} (eng : Engine σ) (st : σ)
    (q : String) (k : Nat) (t1 t2 : ℚ) (h : t1 ≤ t2) :
    (search eng st q k t2).Sublist (search eng st q k t1) := by
  cases he : eng.encode [q] with
  | none =>
    rw [search_encode_fail eng st q k t2 he, search_encode_fail eng st q k t1 he]
  | some v =>
    by_cases hdb : eng.db_type = "chroma"
    · cases hq : eng.collection.query st v k with
      | none =>
        rw [search_store_fail eng st q k t2 v hdb he hq,
          search_store_fail eng st q k t1 v hdb he hq]
      | some entries =>
        rw [search_chroma_eq eng st q k t2 v entries hdb he hq,
          search_chroma_eq eng st q k t1 v entries hdb he hq]
        refine List.monotone_filter_right _ (fun r hr => ?_)
        simp only [decide_eq_true_eq] at hr ⊢
        exact le_trans h hr
    · rw [search_mock_eq eng st q k t2 v hdb he,
        search_mock_eq eng st q k t1 v hdb he]

theorem search_threshold_monotone_witness :
    (0 : ℚ) ≤ (7 : ℚ)/10
    ∧ (search chromaEngine () "q" 5 ((7 : ℚ)/10)).Sublist
        (search chromaEngine () "q" 5 0) :=
  ⟨by norm_num,
    search_threshold_monotone chromaEngine () "q" 5 0 ((7 : ℚ)/10) (by norm_num)⟩

/-- C1 counterexample: the claim that embedding or store failures surface as
typed failures is false: with an embedding model that raises on every call,
and likewise with an unreachable store, `search` returns the empty list —
the very value that the claim reserves for successful zero-match queries —
because the source wraps its whole body in a catch-all exception handler. -/
theorem search_silent_failure_cex :
    search failEmbedEngine () "refund policy" 5 ((7 : ℚ)/10) = []
    ∧ search downStoreEngine () "refund policy" 5 ((7 : ℚ)/10) = [] :=
  ⟨search_encode_fail failEmbedEngine () "refund policy" 5 ((7 : ℚ)/10) rfl,
   search_store_fail downStoreEngine () "refund policy" 5 ((7 : ℚ)/10)
     [[0]] rfl rfl rfl⟩

/-- C1 (amended): when the embedding call fails, or when the store query of
the chroma path fails, `search` catches the exception and returns the empty
list, indistinguishable from a successful query with zero matches above the
threshold; no typed failure (EmbeddingError or StoreUnavailableError)
reaches the caller. -/
theorem search_failure_returns_empty {σ : Type} (eng : Engine σ) (st : σ)
    (q : String) (k : Nat) (t : ℚ) :
    (eng.encode [q] = none → search eng st q k t = [])
    ∧ (∀ v, eng.db_type = "chroma" → eng.encode [q] = some v →
        eng.collection.query st v k = none → search eng st q k t = []) :=
  ⟨fun he => search_encode_fail eng st q k t he,
   fun v hdb he hq => search_store_fail eng st q k t v hdb he hq⟩

theorem search_failure_returns_empty_witness :
    failEmbedEngine.encode ["q2"] = none
    ∧ search failEmbedEngine () "q2" 5 ((7 : ℚ)/10) = [] :=
  ⟨rfl, (search_failure_returns_empty failEmbedEngine () "q2" 5 ((7 : ℚ)/10)).1 rfl⟩

/-- C6 counterexample: with a chroma configuration whose count call raises,
`get_stats` returns the fallback error dictionary as ordinary data instead
of raising a StoreUnavailableError; the constructor-default non-chroma
configuration receives the same dictionary even when nothing failed. -/
theorem get_stats_error_dict_cex :
    get_stats downStoreEngine () = .err "Unable to retrieve statistics"
    ∧ get_stats sqliteEngine () = .err "Unable to retrieve statistics" :=
  ⟨rfl, rfl⟩

/-- C6 (amended): `get_stats` never raises: it returns either the fully
populated stats record — exactly when `db_type` is "chroma" and the count
call succeeds — or the fixed fallback dictionary with the single error
message; a partially populated stats record is impossible, and store
failure produces the fallback dictionary, not a StoreUnavailableError. -/
theorem get_stats_all_or_error {σ : Type} (eng : Engine σ) (st : σ) :
    (eng.db_type = "chroma"
      ∧ ∃ count, eng.collection.count st = some count
        ∧ get_stats eng st = .stats count eng.db_type eng.embedding_model)
    ∨ get_stats eng st = .err "Unable to retrieve statistics" := by
  by_cases hdb : eng.db_type = "chroma"
  · cases hc : eng.collection.count st with
    | none => right; simp [get_stats, hdb, hc]
    | some n =>
      left
      refine ⟨hdb, n, rfl, ?_⟩
      simp [get_stats, hdb, hc]
  · right; simp [get_stats, hdb]

/-- C5 counterexample: a batch holding two documents that both carry the id
"dup", run against a chroma-backed store whose add call rejects intra-batch
duplicate ids (as chromadb does): `add_documents` returns the Python value
False — the caught store exception never surfaces, and the engine itself
performs no duplicate validation, so no ValidationError exists to be
raised — while the store is indeed left unchanged: `get_stats` reports the
same zero count before and after. -/
theorem add_documents_duplicate_batch_cex :
    add_documents chromaListEngine [] [⟨"dup", "a", none⟩, ⟨"dup", "b", none⟩]
      = (some false, [])
    ∧ get_stats chromaListEngine [] = .stats 0 "chroma" "sentence-transformers"
    ∧ get_stats chromaListEngine
        (add_documents chromaListEngine []
          [⟨"dup", "a", none⟩, ⟨"dup", "b", none⟩]).2
      = .stats 0 "chroma" "sentence-transformers" := by
  refine ⟨?_, rfl, ?_⟩ <;> rfl

/-- C5 (amended): `add_documents` contains no duplicate-id validation and
never raises: when the store's add call rejects the prepared batch — as
chromadb does for a batch with intra-batch duplicate ids — the exception is
caught and the call returns False (not a ValidationError), and the store
state is unchanged, so `get_stats` reports the same statistics before and
after the call. -/
theorem add_documents_store_rejection {σ : Type} (eng : Engine σ) (st : σ)
    (documents : List Doc) (hdb : eng.db_type = "chroma")
    (hadd : ∀ embeddings,
      eng.encode (documents.map (·.content)) = some embeddings →
      eng.collection.add st (documents.map (·.id)) embeddings
        (documents.map (·.content))
        (documents.map (fun d => d.metadata.getD [])) = none) :
    add_documents eng st documents = (some false, st)
    ∧ get_stats eng (add_documents eng st documents).2 = get_stats eng st := by
  have hmain : add_documents eng st documents = (some false, st) := by
    simp only [add_documents, if_pos hdb]
    cases he : eng.encode (documents.map (·.content)) with
    | none => rfl
    | some embeddings => simp only [hadd embeddings he]
  exact ⟨hmain, by rw [hmain]⟩

theorem add_documents_store_rejection_witness :
    chromaListEngine.db_type = "chroma"
    ∧ add_documents chromaListEngine ["dup"] [⟨"dup", "again", none⟩]
        = (some false, ["dup"])
    ∧ get_stats chromaListEngine
        (add_documents chromaListEngine ["dup"] [⟨"dup", "again", none⟩]).2
      = get_stats chromaListEngine ["dup"] := by
  have h := add_documents_store_rejection chromaListEngine ["dup"]
    [⟨"dup", "again", none⟩] rfl (fun embeddings _ => rfl)
  exact ⟨rfl, h.1, h.2⟩

/-- C10 counterexample: under the constructor-default configuration
(`db_type = "sqlite"`), `add_documents` with the empty batch falls off the
end of the Python function and returns None — not the success flag True —
though the store is indeed untouched. -/
theorem add_documents_empty_not_success_cex :
    add_documents sqliteEngine () [] = (none, ())
    ∧ (add_documents sqliteEngine () []).1 ≠ some true := by
  refine ⟨rfl, ?_⟩
  intro h
  exact Option.noConfusion h

/-- C10 (amended): with any non-chroma `db_type` — in particular the
constructor default — `add_documents` performs no embedding call and no
store operation for any batch, the empty one included, and returns Python
None rather than a success flag; with `db_type` "chroma" the empty batch is
still forwarded to the store's add call, and when the store rejects the
empty id list (as chromadb does) the call returns False with the store
unchanged. -/
theorem add_documents_empty_behaviour {σ : Type} (eng : Engine σ) (st : σ) :
    (eng.db_type ≠ "chroma" →
      ∀ documents, add_documents eng st documents = (none, st))
    ∧ (eng.db_type = "chroma" → eng.encode [] = some [] →
        eng.collection.add st [] [] [] [] = none →
        add_documents eng st [] = (some false, st)) := by
  constructor
  · intro hdb documents
    simp only [add_documents, if_neg hdb]
  · intro hdb he hadd
    simp only [add_documents, if_pos hdb, List.map_nil, he, hadd]

theorem add_documents_empty_behaviour_witness :
    add_documents sqliteEngine () [] = (none, ())
    ∧ add_documents chromaListEngine [] [] = (some false, []) :=
  ⟨(add_documents_empty_behaviour sqliteEngine ()).1 (by decide) [],
   (add_documents_empty_behaviour chromaListEngine []).2 rfl rfl rfl⟩

end CustomerDocs

namespace DriftTest

open CustomerDocs

/-- C3 counterexample: the search call of the harness carries the omitted
arguments filled by the engine defaults — threshold 0.7, not 0.0 — and a
0.7-threshold search is not an unfiltered search: over a chroma-backed
store holding an entry of similarity 1/2, the call the harness makes
(threshold 0.7) filters that entry out, while a threshold-0.0 call
returns it. -/
theorem harness_threshold_cex :
    harness_search encodeOk "q"
        = search (harnessEngine encodeOk) () "q" 5 ((7 : ℚ)/10)
    ∧ search chromaEngine () "q" 5 ((7 : ℚ)/10)
        ≠ search chromaEngine () "q" 5 0 := by
  refine ⟨rfl, ?_⟩
  have h1 := search_chroma_eq chromaEngine () "q" 5 ((7 : ℚ)/10) [[0]]
    [entryA, entryB] rfl rfl rfl
  have h2 := search_chroma_eq chromaEngine () "q" 5 0 [[0]]
    [entryA, entryB] rfl rfl rfl
  have e1 : ([entryA, entryB].map format_entry).filter
      (fun r => decide ((7 : ℚ)/10 ≤ r.similarity)) = [format_entry entryA] := by
    norm_num [entryA, entryB, format_entry]
  have e2 : ([entryA, entryB].map format_entry).filter
      (fun r => decide ((0 : ℚ) ≤ r.similarity))
      = [format_entry entryA, format_entry entryB] := by
    norm_num [entryA, entryB, format_entry]
  rw [h1, h2, e1, e2]
  simp [entryA, entryB, format_entry]

/-- C3 (amended): the harness calls search without threshold (and top_k)
arguments, so the engine defaults 5 and 0.7 apply, not 0.0; nevertheless,
because the harness constructs its engine with the constructor-default
non-chroma db_type, search takes the mock path, which ignores the
threshold: the per-case result list is the same for every threshold. -/
theorem harness_search_threshold_irrelevant
    (encode : List String → Option (List (List ℚ))) (input : String) :
    harness_search encode input
        = search (harnessEngine encode) () input 5 ((7 : ℚ)/10)
    ∧ ∀ t : ℚ, search (harnessEngine encode) () input 5 t
        = harness_search encode input := by
  have hdb : (harnessEngine encode).db_type ≠ "chroma" := by
    intro h
    have h2 : ("sqlite" : String) = "chroma" := h
    exact absurd h2 (by decide)
  refine ⟨rfl, fun t => ?_⟩
  simp only [harness_search]
  cases he : (harnessEngine encode).encode [input] with
  | none =>
    rw [search_encode_fail _ () input 5 t he,
      search_encode_fail _ () input 5 ((7 : ℚ)/10) he]
  | some v =>
    rw [search_mock_eq _ () input 5 t v hdb he,
      search_mock_eq _ () input 5 ((7 : ℚ)/10) v hdb he]

lemma run_report_spec (encode : List String → Option (List (List ℚ)))
    (cases : List TestCase) (acc : SuiteReport) :
    cases.foldl (fun a c => record_case a (run_case encode c)) acc
      = { passed := acc.passed + (cases.map (run_case encode)).countP
            (fun r => decide (r.status = Status.PASSED))
          failed := acc.failed + (cases.map (run_case encode)).countP
            (fun r => !(decide (r.status = Status.PASSED)))
          tests := acc.tests ++ cases.map (run_case encode) } := by
  induction cases generalizing acc with
  | nil => simp
  | cons c cs ih =>
    rw [List.foldl_cons, ih]
    rcases hst : (run_case encode c).status <;>
      simp [record_case, hst, List.countP_cons] <;> omega

lemma run_case_error_reason (encode : List String → Option (List (List ℚ))) :
    ∀ c : TestCase, (run_case encode c).status = Status.ERROR →
      (run_case encode c).reason ≠ none := by
  rintro ⟨name, inp, exp⟩
  cases inp with
  | none => intro _; simp [run_case]
  | some input =>
    cases hrs : harness_search encode input with
    | nil =>
      by_cases hname : containsSub name "no_results_handling" = true <;>
        simp [run_case, hrs, hname]
    | cons best rest =>
      by_cases hle : exp.getD ((7 : ℚ)/10) ≤ best.similarity
      · simp [run_case, hrs, hle]
      · cases exp with
        | some thr =>
          simp only [Option.getD_some] at hle
          simp [run_case, hrs, hle]
        | none =>
          simp only [Option.getD_none] at hle
          simp [run_case, hrs, hle]

/-- C4 (amended): the harness records exceptions raised inside the per-case
try block (search itself swallows its own failures; the reachable
exceptions are the KeyErrors for a missing input key, and for a missing
expected_similarity key in the failing comparison branch) with status ERROR
and the failure message, and continues to the next case — the report holds
one record per case, in order.  But the report keeps only two counters:
passed counts the PASSED records and failed counts everything else, ERROR
records included; the overall verdict is failed == 0, so errors count as
non-success through the shared failed counter. -/
theorem drift_error_accounting (encode : List String → Option (List (List ℚ)))
    (cases : List TestCase) :
    (run_drift_tests_report encode cases).tests = cases.map (run_case encode)
    ∧ (run_drift_tests_report encode cases).passed
        = ((run_drift_tests_report encode cases).tests.countP
            (fun r => decide (r.status = Status.PASSED)))
    ∧ (run_drift_tests_report encode cases).failed
        = ((run_drift_tests_report encode cases).tests.countP
            (fun r => !(decide (r.status = Status.PASSED))))
    ∧ (run_drift_tests encode cases = true
        ↔ (run_drift_tests_report encode cases).failed = 0)
    ∧ (∀ r ∈ (run_drift_tests_report encode cases).tests,
        r.status = Status.ERROR → r.reason ≠ none) := by
  have hrep := run_report_spec encode cases { passed := 0, failed := 0, tests := [] }
  have hrep2 : run_drift_tests_report encode cases
      = { passed := (cases.map (run_case encode)).countP
            (fun r => decide (r.status = Status.PASSED))
          failed := (cases.map (run_case encode)).countP
            (fun r => !(decide (r.status = Status.PASSED)))
          tests := cases.map (run_case encode) } := by
    simpa [run_drift_tests_report] using hrep
  refine ⟨by rw [hrep2], by rw [hrep2], by rw [hrep2], ?_, ?_⟩
  · simp [run_drift_tests]
  · rw [hrep2]
    intro r hr herr
    simp only [List.mem_map] at hr
    obtain ⟨c, _, hc⟩ := hr
    exact hc ▸ run_case_error_reason encode c (hc ▸ herr)

theorem drift_error_accounting_witness :
    (run_drift_tests_report encodeOk
        [⟨"case_a", none, none⟩, ⟨"case_b", some "q", none⟩]).tests
      = [⟨"case_a", none, none⟩, ⟨"case_b", some "q", none⟩].map
          (run_case encodeOk)
    ∧ (run_drift_tests_report encodeOk
        [⟨"case_a", none, none⟩, ⟨"case_b", some "q", none⟩]).passed
      = (run_drift_tests_report encodeOk
          [⟨"case_a", none, none⟩, ⟨"case_b", some "q", none⟩]).tests.countP
            (fun r => decide (r.status = Status.PASSED))
    ∧ (run_drift_tests_report encodeOk
        [⟨"case_a", none, none⟩, ⟨"case_b", some "q", none⟩]).failed
      = (run_drift_tests_report encodeOk
          [⟨"case_a", none, none⟩, ⟨"case_b", some "q", none⟩]).tests.countP
            (fun r => !(decide (r.status = Status.PASSED)))
    ∧ (run_drift_tests encodeOk
          [⟨"case_a", none, none⟩, ⟨"case_b", some "q", none⟩] = true
        ↔ (run_drift_tests_report encodeOk
            [⟨"case_a", none, none⟩, ⟨"case_b", some "q", none⟩]).failed = 0)
    ∧ (∀ r ∈ (run_drift_tests_report encodeOk
          [⟨"case_a", none, none⟩, ⟨"case_b", some "q", none⟩]).tests,
        r.status = Status.ERROR → r.reason ≠ none) :=
  drift_error_accounting encodeOk
    [⟨"case_a", none, none⟩, ⟨"case_b", some "q", none⟩]

/-- C8: the per-case decision policy of the drift harness, for every case
whose input key is present: zero search results with the
"no_results_handling" marker substring in the case name → PASSED; zero
results without the marker → FAILED; otherwise the case is PASSED exactly
when the top-ranked result's similarity reaches the case's expected minimum
similarity (default 0.7), and FAILED exactly when it falls short, the
failure reason then carrying the similarity and the expected threshold. -/
theorem drift_case_policy (encode : List String → Option (List (List ℚ)))
    (c : TestCase) (input : String) (hin : c.input = some input) :
    (harness_search encode input = [] →
      ((run_case encode c).status = Status.PASSED
          ↔ containsSub c.name "no_results_handling" = true)
      ∧ ((run_case encode c).status = Status.FAILED
          ↔ containsSub c.name "no_results_handling" = false))
    ∧ (∀ best rest, harness_search encode input = best :: rest →
        ((run_case encode c).status = Status.PASSED
            ↔ c.expected_similarity.getD ((7 : ℚ)/10) ≤ best.similarity)
        ∧ ((run_case encode c).status = Status.FAILED
            ↔ best.similarity < c.expected_similarity.getD ((7 : ℚ)/10))
        ∧ ((run_case encode c).status = Status.FAILED →
            ∃ thr, c.expected_similarity = some thr
              ∧ (run_case encode c).reason
                = some ("Similarity " ++ toString best.similarity
                    ++ " below threshold " ++ toString thr))) := by
  obtain ⟨name, inp, exp⟩ := c
  have hin2 : inp = some input := hin
  subst hin2
  constructor
  · intro hrs
    by_cases hname : containsSub name "no_results_handling" = true <;>
      simp [run_case, hrs, hname]
  · intro best rest hrs
    have hdb : (harnessEngine encode).db_type ≠ "chroma" := by
      intro h
      have h2 : ("sqlite" : String) = "chroma" := h
      exact absurd h2 (by decide)
    have hb : best.similarity = (85 : ℚ)/100 := by
      cases he : encode [input] with
      | none =>
        have hrs2 := hrs
        simp only [harness_search] at hrs2
        rw [search_encode_fail (harnessEngine encode) () input 5
          ((7 : ℚ)/10) he] at hrs2
        exact List.noConfusion hrs2
      | some v =>
        have hrs2 := hrs
        simp only [harness_search] at hrs2
        rw [search_mock_eq (harnessEngine encode) () input 5
          ((7 : ℚ)/10) v hdb he] at hrs2
        simp only [mock_search] at hrs2
        injection hrs2 with h1 h2
        rw [← h1]
    by_cases hle : exp.getD ((7 : ℚ)/10) ≤ best.similarity
    · refine ⟨by simp [run_case, hrs, hle], ?_, ?_⟩
      · simp [run_case, hrs, hle, not_lt.mpr hle]
      · simp [run_case, hrs, hle]
    · cases exp with
      | some thr =>
        simp only [Option.getD_some] at hle
        refine ⟨by simp [run_case, hrs, hle], ?_, ?_⟩
        · simp [run_case, hrs, hle, not_le.mp hle]
        · intro _
          exact ⟨thr, rfl, by simp [run_case, hrs, hle]⟩
      | none =>
        simp only [Option.getD_none] at hle
        exact absurd (by rw [hb]; norm_num) hle

theorem drift_case_policy_witness :
    (⟨"case_mock", some "q", some ((9 : ℚ)/10)⟩ : TestCase).input = some "q"
    ∧ harness_search encodeOk "q"
        = [{ id := "mock_1"
             content := "Mock result for query: q"
             metadata := [("title", "Mock Document"), ("source", "test")]
             similarity := (85 : ℚ)/100
             distance := (15 : ℚ)/100 }]
    ∧ (run_case encodeOk ⟨"case_mock", some "q", some ((9 : ℚ)/10)⟩).status
        = Status.FAILED
    ∧ (85 : ℚ)/100 < (9 : ℚ)/10 := by
  have hmock : harness_search encodeOk "q"
      = [{ id := "mock_1"
           content := "Mock result for query: q"
           metadata := [("title", "Mock Document"), ("source", "test")]
           similarity := (85 : ℚ)/100
           distance := (15 : ℚ)/100 }] := by
    exact rfl
  have h := drift_case_policy encodeOk
    ⟨"case_mock", some "q", some ((9 : ℚ)/10)⟩ "q" rfl
  have h2 := (h.2 _ _ hmock).2.1
  refine ⟨rfl, hmock, ?_, by norm_num⟩
  exact h2.mpr (by norm_num [Option.getD_some])

/-- C4 counterexample: the report dictionary has no errored counter to keep
separate: a suite whose single case raises (the KeyError from its missing
input key) ends with failed = 1 although not one of its per-case records
has status FAILED — the ERROR case was counted into the shared failed
counter, and the claimed separate passed/failed/errored counts do not
exist. -/
theorem drift_no_separate_error_count_cex :
    run_drift_tests_report encodeOk [⟨"case_a", none, none⟩]
      = { passed := 0, failed := 1
          tests := [{ name := "case_a", status := Status.ERROR
                      similarity := none
                      reason := some "KeyError: \x27input\x27" }] }
    ∧ ((run_drift_tests_report encodeOk [⟨"case_a", none, none⟩]).tests.countP
        (fun r => decide (r.status = Status.FAILED))) = 0
    ∧ run_drift_tests encodeOk [⟨"case_a", none, none⟩] = false :=
  ⟨rfl, rfl, rfl⟩

end DriftTest
